import Mathlib

/-!
Shallow embedding of the order-tracker server (`server.js`) request handlers
and data model, with theorems checking the specification's claims.

Conventions used throughout:
* JS objects keyed by strings become association lists `List (String × _)`
  searched with `List.lookup` (first match wins, like a JS object read).
* JS numbers that only ever hold the fixed integer progress percentages are
  `Nat`; latitude/longitude values are exact rationals `ℚ`.
* Missing / `undefined` values are `Option`; the JS `||` chain on strings is
  `jsOrStr` (first non-empty string wins).
* Express responses become per-endpoint inductive result types, one
  constructor per `res.status(..).json(..)` exit of the handler; reaching an
  external provider call is itself a constructor, since everything after it
  leaves the program under verification.
-/

/-- JS `a || b` restricted to optional strings: `a` wins iff it is a
nonempty string, mirroring string truthiness. -/
def jsOrStr (a b : Option String) : Option String :=
  match a with
  | some s => if s = "" then b else some s
  | none => b

/-- JS `String.prototype.trim()`: strip whitespace from both ends
(character-list implementation so it evaluates inside proofs). -/
def jsTrim (s : String) : String :=
  String.mk (((s.data.dropWhile Char.isWhitespace).reverse.dropWhile Char.isWhitespace).reverse)

/-- JS `String.prototype.toLowerCase()` on the ASCII range. -/
def jsToLower (s : String) : String :=
  String.mk (s.data.map Char.toLower)

/-- `statusMeta` from server.js: status → progress percentage table. -/
def statusMetaTable : List (String × Nat) :=
  [("Processing", 25), ("Packed", 35), ("Shipped", 50), ("In Transit", 70),
   ("Out for Delivery", 85), ("Delivered", 100), ("Canceled", 0), ("Returned", 0)]

/-- `statusMeta[s]` as an optional read of the table. -/
def statusMeta (s : String) : Option Nat :=
  statusMetaTable.lookup s

/-- The fixed status set: the keys of `statusMeta`. -/
def statusSet : List String :=
  statusMetaTable.map Prod.fst

/-- An order record of the demo table: `{ status, origin, dest, originName, destName }`. -/
structure OrderRec where
  status : String
  origin : Option (ℚ × ℚ)
  dest : Option (ℚ × ℚ)
  originName : Option String
  destName : Option String
deriving Repr, DecidableEq

/-- `demoOrders` from server.js, as an association list. -/
def demoOrders : List (String × OrderRec) :=
  [("1001",
    { status := "Processing", origin := some (28.6139, 77.209),
      dest := some (19.076, 72.8777),
      originName := some "Delhi", destName := some "Mumbai" }),
   ("1002",
    { status := "Shipped", origin := some (12.9716, 77.5946),
      dest := some (13.0827, 80.2707),
      originName := some "Bengaluru", destName := some "Chennai" }),
   ("1003",
    { status := "Out for Delivery", origin := some (22.5726, 88.3639),
      dest := some (22.5726, 88.3639),
      originName := some "Kolkata", destName := some "Kolkata" }),
   ("1004",
    { status := "Delivered", origin := some (17.385, 78.4867),
      dest := some (17.385, 78.4867),
      originName := some "Hyderabad", destName := some "Hyderabad" }),
   ("O_ID_3000034",
    { status := "Shipped", origin := some (28.6139, 77.209),
      dest := some (26.9124, 75.7873),
      originName := some "Delhi", destName := some "Jaipur" })]

/-- `buildPolyline(origin, dest)`: 3-point polyline with a bowed midpoint,
`null` unless both endpoints are coordinate arrays. -/
def buildPolyline (origin dest : Option (ℚ × ℚ)) : Option (List (ℚ × ℚ)) :=
  match origin, dest with
  | some (olat, olng), some (dlat, dlng) =>
      some [(olat, olng), ((olat + dlat) / 2 + 0.5, (olng + dlng) / 2), (dlat, dlng)]
  | _, _ => none

/-- A `{lat, lng}` object. -/
structure LatLng where
  lat : ℚ
  lng : ℚ
deriving Repr, DecidableEq

/-- The grouped `route` payload of the unified response. -/
structure RoutePayload where
  origin : Option LatLng
  dest : Option LatLng
  polyline : Option (List (ℚ × ℚ))
  current : Option LatLng
  originName : Option String
  destName : Option String
deriving Repr, DecidableEq

/-- The JSON body produced by `buildUnifiedResponse`. -/
structure UnifiedResponse where
  status : String
  progress : Nat
  origin : Option (ℚ × ℚ)
  dest : Option (ℚ × ℚ)
  polyline : Option (List (ℚ × ℚ))
  route : RoutePayload
deriving Repr, DecidableEq

/-- `buildUnifiedResponse(rec)` from server.js (for a non-null record):
progress from `statusMeta` with fallback 40, polyline, and a synthetic
`current` position clamped onto the origin→dest segment. -/
def buildUnifiedResponse (rec : OrderRec) : UnifiedResponse :=
  let progress := (statusMeta rec.status).getD 40
  let polyline := buildPolyline rec.origin rec.dest
  let current : Option LatLng :=
    match rec.origin, rec.dest with
    | some (olat, olng), some (dlat, dlng) =>
        let r : ℚ := max 0 (min 1 ((progress : ℚ) / 100))
        some { lat := olat + (dlat - olat) * r, lng := olng + (dlng - olng) * r }
    | _, _ => none
  { status := rec.status
    progress := progress
    origin := rec.origin
    dest := rec.dest
    polyline := polyline
    route :=
      { origin := rec.origin.map (fun p => { lat := p.1, lng := p.2 })
        dest := rec.dest.map (fun p => { lat := p.1, lng := p.2 })
        polyline := polyline
        current := current
        originName := rec.originName
        destName := rec.destName } }

/-- `normalizeOrderId(input)`: empty for a missing value, else trim. -/
def normalizeOrderId (input : Option String) : String :=
  match input with
  | none => ""
  | some s => jsTrim s

/-- `getDemoTracking(orderId)`: the flat (non-`route`) tracking payload. -/
structure DemoTracking where
  status : String
  progress : Nat
  origin : Option (ℚ × ℚ)
  dest : Option (ℚ × ℚ)
  polyline : Option (List (ℚ × ℚ))
deriving Repr, DecidableEq

/-- `getDemoTracking` from server.js, over an explicit table state. -/
def getDemoTracking (orders : List (String × OrderRec)) (orderId : String) :
    Option DemoTracking :=
  match orders.lookup orderId with
  | none => none
  | some rec =>
      some { status := rec.status
             progress := (statusMeta rec.status).getD 40
             origin := rec.origin
             dest := rec.dest
             polyline := buildPolyline rec.origin rec.dest }

/-- Result of the three `/api/track*` demo endpoints: one constructor per
`res.status(..).json(..)` exit. -/
inductive TrackResult where
  | badRequest (error : String)
  | notFound (error : String)
  | ok (body : UnifiedResponse)
deriving Repr, DecidableEq

/-- `GET /api/track?orderId=...` (the query value after the
`orderId || id || order_id` chain). -/
def apiTrackGet (orders : List (String × OrderRec)) (query : Option String) :
    TrackResult :=
  let orderId := normalizeOrderId query
  if orderId = "" then .badRequest "orderId required"
  else
    match orders.lookup orderId with
    | none => .notFound "Order not found"
    | some rec => .ok (buildUnifiedResponse rec)

/-- `GET /api/track/:orderId`. -/
def apiTrackGetPath (orders : List (String × OrderRec)) (param : Option String) :
    TrackResult :=
  let orderId := normalizeOrderId param
  if orderId = "" then .badRequest "orderId required"
  else
    match orders.lookup orderId with
    | none => .notFound "Order not found"
    | some rec => .ok (buildUnifiedResponse rec)

/-- Body of `POST /api/track`. -/
structure TrackPostBody where
  orderId : Option String
  id : Option String
  order_id : Option String
  query : Option String
deriving Repr, DecidableEq

/-- A character of the regex class `[A-Za-z0-9_\-]`. -/
def isTokenChar (c : Char) : Bool :=
  c.isAlphanum || c = '_' || c = '-'

/-- Try to match `/[A-Za-z]*\d[A-Za-z0-9_\-]*/` anchored at the head of `cs`.
Letters and digits are disjoint, so the greedy `[A-Za-z]*` never needs to
backtrack: skip the maximal letter run, require a digit, then extend. -/
def matchTokenAt (cs : List Char) : Option (List Char) :=
  let letters := cs.takeWhile Char.isAlpha
  match cs.drop letters.length with
  | [] => none
  | d :: tail =>
      if d.isDigit then some (letters ++ d :: tail.takeWhile isTokenChar) else none

/-- Leftmost match of `/[A-Za-z]*\d[A-Za-z0-9_\-]*/`: try each start position
left to right, as `String.prototype.match` does. -/
def firstTokenAux : List Char → Option (List Char)
  | [] => none
  | c :: cs =>
      match matchTokenAt (c :: cs) with
      | some t => some t
      | none => firstTokenAux cs

/-- `msg.match(/[A-Za-z]*\d[A-Za-z0-9_\-]*/)` returning the matched token. -/
def firstToken (s : String) : Option String :=
  (firstTokenAux s.data).map String.mk

/-- `POST /api/track { orderId | id | order_id | query }`. -/
def apiTrackPost (orders : List (String × OrderRec)) (body : TrackPostBody) :
    TrackResult :=
  let fromFields := normalizeOrderId (jsOrStr body.orderId (jsOrStr body.id body.order_id))
  let orderId :=
    if fromFields = "" then
      match body.query with
      | some q => (firstToken q).getD ""
      | none => ""
    else fromFields
  if orderId = "" then .badRequest "orderId required"
  else
    match orders.lookup orderId with
    | none => .notFound "Order not found"
    | some rec => .ok (buildUnifiedResponse rec)

/-- Result of `GET /api/track-carrier`: validation error, the 501
misconfiguration error, or handing off to the AfterShip provider call. -/
inductive TrackCarrierResult where
  | badRequest (error : String)
  | notConfigured (error : String)
  | providerCall (carrier tracking apiKey : String)
deriving Repr, DecidableEq

/-- `GET /api/track-carrier?carrier=..&tracking=..` with the
`AFTERSHIP_API_KEY` environment value (`none`/empty means unset). -/
def apiTrackCarrier (carrier tracking apiKey : Option String) : TrackCarrierResult :=
  if carrier.getD "" = "" ∨ tracking.getD "" = "" then
    .badRequest "carrier and tracking are required"
  else if apiKey.getD "" = "" then
    .notConfigured "Tracking provider not configured on server (set AFTERSHIP_API_KEY)"
  else
    .providerCall (carrier.getD "") (tracking.getD "") (apiKey.getD "")

/-- JS `Array.prototype.indexOf` on a string list: index of first occurrence
or `-1`. -/
def jsIndexOf (l : List String) (s : String) : Int :=
  match l.indexOf? s with
  | some i => (i : Int)
  | none => -1

/-- The forward status flow of the admin advance endpoint. -/
def flowStatuses : List String :=
  ["Processing", "Packed", "Shipped", "In Transit", "Out for Delivery", "Delivered"]

/-- One advance step on a status string, exactly as the handler computes it:
`idx = Math.max(0, flow.indexOf(status))`, step to `flow[idx+1]` while
`idx < flow.length - 1`, else leave the status alone. -/
def advanceStatus (s : String) : String :=
  let idx : Int := max 0 (jsIndexOf flowStatuses s)
  if idx < (flowStatuses.length : Int) - 1 then
    (flowStatuses.get? (idx.toNat + 1)).getD s
  else s

/-- Overwrite the `status` field of the record stored under `id`. -/
def updateStatus (orders : List (String × OrderRec)) (id newStatus : String) :
    List (String × OrderRec) :=
  orders.map (fun e => if e.1 = id then (e.1, { e.2 with status := newStatus }) else e)

/-- Response of `POST /api/admin/advance/:orderId`. -/
inductive AdvanceResult where
  | notFound (error : String)
  | ok (id : String) (body : Option DemoTracking)
deriving Repr, DecidableEq

/-- `POST /api/admin/advance/:orderId`: look up the order, step its status
forward once, and answer with `{ id, ...getDemoTracking(id) }` read from the
mutated table.  Returns the new table state together with the response. -/
def adminAdvance (orders : List (String × OrderRec)) (rawId : String) :
    List (String × OrderRec) × AdvanceResult :=
  let id := jsTrim rawId
  match orders.lookup id with
  | none => (orders, .notFound "Order not found")
  | some rec =>
      let orders' := updateStatus orders id (advanceStatus rec.status)
      (orders', .ok id (getDemoTracking orders' id))

/-- The table state after a whole sequence of admin advance calls. -/
def applyAdvances (ids : List String) (orders : List (String × OrderRec)) :
    List (String × OrderRec) :=
  ids.foldl (fun t i => (adminAdvance t i).1) orders

/-- One line of the persisted `subscriptions.json` array. -/
structure Subscription where
  orderId : String
  email : String
  ts : String
deriving Repr, DecidableEq

/-- Response of `POST /api/subscribe`. -/
inductive SubscribeResult where
  | badRequest (error : String)
  | notFound (error : String)
  | ok
deriving Repr, DecidableEq

/-- `POST /api/subscribe { orderId, email }`: validate, require a known
order, then append one record to the subscription list (no deduplication).
`ts` is the wall-clock timestamp recorded with the entry. -/
def apiSubscribe (orders : List (String × OrderRec)) (subs : List Subscription)
    (bodyOrderId bodyEmail : Option String) (ts : String) :
    List Subscription × SubscribeResult :=
  let id := normalizeOrderId bodyOrderId
  let em := jsToLower (jsTrim (bodyEmail.getD ""))
  if id = "" ∨ em = "" then (subs, .badRequest "orderId and email required")
  else
    match orders.lookup id with
    | none => (subs, .notFound "Order not found")
    | some _ => (subs ++ [{ orderId := id, email := em, ts := ts }], .ok)

/-- `notifySubscribers(orderId, oldStatus, newStatus)`: the list of
`(to, subject)` emails sent, one per stored subscription whose `orderId`
matches, provided at least one matches and the order exists. -/
def notifySubscribers (subs : List Subscription) (orderId _oldStatus newStatus : String)
    (orders : List (String × OrderRec)) : List (String × String) :=
  let orderSubs := subs.filter (fun sub => sub.orderId = orderId)
  if orderSubs.length = 0 then []
  else
    match orders.lookup orderId with
    | none => []
    | some _ =>
        orderSubs.map (fun sub =>
          (sub.email, "Order " ++ orderId ++ " Update - " ++ newStatus))

/-- `mapAfterShipTag(tag)`: lowercase the tag, then walk the fixed
`includes` chain; the final `else` yields `("Shipped", 50)`. -/
def mapAfterShipTag (tag : Option String) : String × Nat :=
  let t := jsToLower (tag.getD "")
  if ["pending", "info_received"].contains t then ("Processing", 15)
  else if ["intransit", "in_transit"].contains t then ("In Transit", 70)
  else if ["outfordelivery", "out_for_delivery"].contains t then ("Out for Delivery", 85)
  else if ["delivered"].contains t then ("Delivered", 100)
  else if ["exception", "failed_attempt"].contains t then ("Exception", 50)
  else if ["expired", "canceled"].contains t then ("Canceled", 0)
  else ("Shipped", 50)

/-- The recognized (lowercased) carrier tags with their fixed local
status/progress pairs, written as one flat table for comparison with the
`if` chain of `mapAfterShipTag`. -/
def recognizedTagTable : List (String × (String × Nat)) :=
  [("pending", ("Processing", 15)), ("info_received", ("Processing", 15)),
   ("intransit", ("In Transit", 70)), ("in_transit", ("In Transit", 70)),
   ("outfordelivery", ("Out for Delivery", 85)), ("out_for_delivery", ("Out for Delivery", 85)),
   ("delivered", ("Delivered", 100)),
   ("exception", ("Exception", 50)), ("failed_attempt", ("Exception", 50)),
   ("expired", ("Canceled", 0)), ("canceled", ("Canceled", 0))]

/-- Regex `/^TBA[0-9A-Z]+$/i` (Amazon Logistics). -/
def matchesAmazon (s : String) : Bool :=
  match s.data with
  | t :: b :: a :: rest =>
      t.toUpper = 'T' && b.toUpper = 'B' && a.toUpper = 'A' &&
        !rest.isEmpty && rest.all (fun c => c.isDigit || c.isAlpha)
  | _ => false

/-- Regex `/^1Z[0-9A-Z]{16,18}$/i` (UPS). -/
def matchesUPS (s : String) : Bool :=
  match s.data with
  | one :: z :: rest =>
      one = '1' && z.toUpper = 'Z' &&
        decide (16 ≤ rest.length) && decide (rest.length ≤ 18) &&
        rest.all (fun c => c.isDigit || c.isAlpha)
  | _ => false

/-- Regex `/^\d{20,22}$/` (USPS). -/
def matchesUSPS (s : String) : Bool :=
  decide (20 ≤ s.data.length) && decide (s.data.length ≤ 22) && s.data.all Char.isDigit

/-- Regex `/^(\d{12}|\d{14}|\d{15}|\d{20}|\d{22})$/` (FedEx). -/
def matchesFedEx (s : String) : Bool :=
  [12, 14, 15, 20, 22].contains s.data.length && s.data.all Char.isDigit

/-- Regex `/^[0-9A-Z]{10,22}$/` (DHL; note: case-sensitive). -/
def matchesDHL (s : String) : Bool :=
  decide (10 ≤ s.data.length) && decide (s.data.length ≤ 22) &&
    s.data.all (fun c => c.isDigit || c.isUpper)

/-- Hex digit character for `n < 16`, uppercase as `encodeURIComponent` emits. -/
def hexDigitChar (n : Nat) : Char :=
  if n < 10 then Char.ofNat (48 + n) else Char.ofNat (55 + n)

/-- UTF-8 bytes of a character, as byte values. -/
def utf8Bytes (c : Char) : List Nat :=
  let n := c.toNat
  if n < 128 then [n]
  else if n < 2048 then [192 + n / 64, 128 + n % 64]
  else if n < 65536 then [224 + n / 4096, 128 + (n / 64) % 64, 128 + n % 64]
  else [240 + n / 262144, 128 + (n / 4096) % 64, 128 + (n / 64) % 64, 128 + n % 64]

/-- Characters `encodeURIComponent` leaves unescaped. -/
def isUnreservedURI (c : Char) : Bool :=
  c.isAlphanum || c = '-' || c = '_' || c = '.' || c = '!' || c = '~' ||
    c = '*' || c = '\'' || c = '(' || c = ')'

/-- JS `encodeURIComponent`: percent-encode every UTF-8 byte of each
non-unreserved character. -/
def encodeURIComponent (s : String) : String :=
  String.join (s.data.map (fun c =>
    if isUnreservedURI c then String.singleton c
    else String.join ((utf8Bytes c).map (fun b =>
      "%" ++ String.singleton (hexDigitChar (b / 16)) ++ String.singleton (hexDigitChar (b % 16))))))

/-- One `{ carrier, url }` entry of the `links` array. -/
structure Link where
  carrier : String
  url : String
deriving Repr, DecidableEq

/-- `buildCarrierLinks(code)`: pattern-gated links for Amazon/UPS/USPS/
FedEx/DHL, then six India-carrier links pushed unconditionally. -/
def buildCarrierLinks (code : String) : List Link :=
  let c := jsTrim code
  (if matchesAmazon c then
    [{ carrier := "Amazon Logistics",
       url := "https://track.amazon.in/?trackingId=" ++ encodeURIComponent c }] else []) ++
  (if matchesUPS c then
    [{ carrier := "UPS",
       url := "https://www.ups.com/track?loc=en_US&tracknum=" ++ encodeURIComponent c }] else []) ++
  (if matchesUSPS c then
    [{ carrier := "USPS",
       url := "https://tools.usps.com/go/TrackConfirmAction?tLabels=" ++ encodeURIComponent c }] else []) ++
  (if matchesFedEx c then
    [{ carrier := "FedEx",
       url := "https://www.fedex.com/fedextrack/?trknbr=" ++ encodeURIComponent c }] else []) ++
  (if matchesDHL c then
    [{ carrier := "DHL",
       url := "https://www.dhl.com/global-en/home/tracking/tracking-express.html?tracking-id=" ++ encodeURIComponent c }] else []) ++
  [{ carrier := "Delhivery",
     url := "https://www.delhivery.com/track/package/" ++ encodeURIComponent c ++ "/" },
   { carrier := "Blue Dart",
     url := "https://www.bluedart.com/trackdartresult?trackFor=0&trackInput=" ++ encodeURIComponent c },
   { carrier := "XpressBees",
     url := "https://www.xpressbees.com/track?awb=" ++ encodeURIComponent c },
   { carrier := "DTDC",
     url := "https://www.dtdc.com/track/shipment-tracking.asp?cnNo=" ++ encodeURIComponent c },
   { carrier := "Ecom Express",
     url := "https://ecomexpress.in/tracking/?awb_field=" ++ encodeURIComponent c },
   { carrier := "Ekart (Flipkart)",
     url := "https://www.ekartlogistics.com/" }]

/-- Body of `POST /api/track-any`. -/
structure TrackAnyBody where
  query : Option String
  q : Option String
deriving Repr, DecidableEq

/-- Result of `POST /api/track-any`: one constructor per exit reachable
before any provider network call, plus `providerFlow` for the handler
continuation that runs only when an API key is configured. -/
inductive TrackAnyResult where
  | badRequest (error : String)
  | okDemo (body : UnifiedResponse)
  | okLinks (status : String) (progress : Nat) (links : List Link) (note : String)
  | notFoundNoLink (error : String)
  | providerFlow (raw apiKey : String)
deriving Repr, DecidableEq

/-- `true` exactly on the `notFoundNoLink` (HTTP 404 "no known link format")
response. -/
def TrackAnyResult.isNoLinkNotFound : TrackAnyResult → Bool
  | .notFoundNoLink _ => true
  | _ => false

/-- `POST /api/track-any { query | q }`: demo lookup first; without an API
key, answer with the official-link list when nonempty and the 404 error
otherwise; with a key, continue into the carrier/auto-detect flow. -/
def apiTrackAny (orders : List (String × OrderRec)) (apiKey : Option String)
    (body : TrackAnyBody) : TrackAnyResult :=
  let raw := jsTrim ((jsOrStr body.query body.q).getD "")
  if raw = "" then .badRequest "query required"
  else
    match orders.lookup raw with
    | some rec => .okDemo (buildUnifiedResponse rec)
    | none =>
        if apiKey.getD "" = "" then
          let links := buildCarrierLinks raw
          if links.length ≠ 0 then
            .okLinks "Open in carrier site" 0 links
              "Provider API not configured; use an official tracking link below."
          else .notFoundNoLink "No provider configured and no known link format for this code"
        else .providerFlow raw (apiKey.getD "")

/-- A hypothetical table state holding one order that is already in the
`Canceled` status (such a status is never seeded and never produced by the
advance flow, but the handler accepts any table state). -/
def canceledTable : List (String × OrderRec) :=
  [("9001",
    { status := "Canceled", origin := some (28.6139, 77.209),
      dest := some (19.076, 72.8777),
      originName := some "Delhi", destName := some "Mumbai" })]

/-- Like `canceledTable` but with a `Returned` order. -/
def returnedTable : List (String × OrderRec) :=
  [("9002",
    { status := "Returned", origin := some (12.9716, 77.5946),
      dest := some (13.0827, 80.2707),
      originName := some "Bengaluru", destName := some "Chennai" })]

/-- All records in the table have a status drawn from `allowed`. -/
def allStatusesIn (orders : List (String × OrderRec)) (allowed : List String) : Prop :=
  ∀ e ∈ orders, e.2.status ∈ allowed

/-! ### Association-list helper lemmas -/

theorem lookup_mem {α β : Type} [BEq α] [LawfulBEq α] {l : List (α × β)} {k : α} {v : β}
    (h : l.lookup k = some v) : (k, v) ∈ l := by
  induction l with
  | nil => simp [List.lookup] at h
  | cons e t ih =>
      obtain ⟨a, b⟩ := e
      by_cases hk : k = a
      · subst hk
        simp [List.lookup] at h
        simp [h]
      · simp [List.lookup, beq_false_of_ne hk] at h
        exact List.mem_cons_of_mem _ (ih h)

theorem updateStatus_cons (a : String) (b : OrderRec) (t : List (String × OrderRec))
    (id st : String) :
    updateStatus ((a, b) :: t) id st =
      (if a = id then (a, { b with status := st }) else (a, b)) :: updateStatus t id st := by
  simp only [updateStatus, List.map_cons]

theorem lookup_updateStatus (l : List (String × OrderRec)) (id st k : String) :
    (updateStatus l id st).lookup k =
      if k = id then (l.lookup k).map (fun r => { r with status := st }) else l.lookup k := by
  induction l with
  | nil => simp [updateStatus]
  | cons e t ih =>
      obtain ⟨a, b⟩ := e
      rw [updateStatus_cons]
      by_cases hai : a = id
      · rw [if_pos hai]
        by_cases hk : k = a
        · subst hk
          simp [List.lookup_cons, hai]
        · simp [List.lookup_cons, beq_false_of_ne hk, ih]
      · rw [if_neg hai]
        by_cases hk : k = a
        · subst hk
          simp [List.lookup_cons, hai]
        · simp [List.lookup_cons, beq_false_of_ne hk, ih]

theorem mem_updateStatus {l : List (String × OrderRec)} {id st : String} {e : String × OrderRec}
    (h : e ∈ updateStatus l id st) :
    (∃ e₀ ∈ l, e = e₀) ∨ (∃ e₀ ∈ l, e = (e₀.1, { e₀.2 with status := st })) := by
  unfold updateStatus at h
  obtain ⟨e₀, he₀, hmap⟩ := List.mem_map.mp h
  by_cases hid : e₀.1 = id
  · right
    exact ⟨e₀, he₀, by simpa [hid] using hmap.symm⟩
  · left
    exact ⟨e₀, he₀, by simpa [hid] using hmap.symm⟩

/-! ### Behaviour of the admin advance endpoint -/

theorem adminAdvance_fst_none {tbl : List (String × OrderRec)} {rawId : String}
    (h : tbl.lookup (jsTrim rawId) = none) : (adminAdvance tbl rawId).1 = tbl := by
  simp [adminAdvance, h]

theorem adminAdvance_fst_some {tbl : List (String × OrderRec)} {rawId : String}
    {rec : OrderRec} (h : tbl.lookup (jsTrim rawId) = some rec) :
    (adminAdvance tbl rawId).1 = updateStatus tbl (jsTrim rawId) (advanceStatus rec.status) := by
  simp [adminAdvance, h]

/-- `advanceStatus` lands in the forward flow whatever string it is fed:
a found status steps forward (or stays at `Delivered`), and an unknown
status clamps `indexOf = -1` to `0` and is sent to `flow[1] = "Packed"`. -/
theorem advanceStatus_mem_flow (s : String) : advanceStatus s ∈ flowStatuses := by
  by_cases h : s ∈ flowStatuses
  · fin_cases h <;> decide
  · have hnone : flowStatuses.indexOf? s = none := by
      rw [List.indexOf?_eq_none_iff]
      intro x hx hxs
      exact h (eq_of_beq hxs ▸ hx)
    have hmax : max (0 : Int) (-1) = 0 := by decide
    have hpacked : advanceStatus s = "Packed" := by
      simp only [advanceStatus, jsIndexOf, hnone, hmax]
      norm_num [flowStatuses]
    rw [hpacked]
    decide

theorem allStatusesIn_demo : allStatusesIn demoOrders flowStatuses := by
  unfold allStatusesIn
  decide

theorem allStatusesIn_advance (tbl : List (String × OrderRec)) (i : String)
    (h : allStatusesIn tbl flowStatuses) :
    allStatusesIn (adminAdvance tbl i).1 flowStatuses := by
  cases hl : tbl.lookup (jsTrim i) with
  | none => rw [adminAdvance_fst_none hl]; exact h
  | some rec =>
      rw [adminAdvance_fst_some hl]
      intro e he
      rcases mem_updateStatus he with ⟨e₀, he₀, heq⟩ | ⟨e₀, he₀, heq⟩
      · rw [heq]
        exact h e₀ he₀
      · rw [heq]
        exact advanceStatus_mem_flow rec.status

theorem allStatusesIn_applyAdvances (ids : List String) (tbl : List (String × OrderRec))
    (h : allStatusesIn tbl flowStatuses) :
    allStatusesIn (applyAdvances ids tbl) flowStatuses := by
  induction ids generalizing tbl with
  | nil => exact h
  | cons i t ih => exact ih _ (allStatusesIn_advance tbl i h)

/-! ### Claim C3: advancing Out for Delivery / Delivered -/

/-- C3: for an order whose status is `"Out for Delivery"`, one admin
advance call sets its status to `"Delivered"`; for an order whose status is
`"Delivered"`, an advance call leaves the stored record unchanged. -/
theorem advance_out_for_delivery_then_delivered (tbl : List (String × OrderRec))
    (rawId : String) (rec : OrderRec) (h : tbl.lookup (jsTrim rawId) = some rec) :
    (rec.status = "Out for Delivery" →
      ((adminAdvance tbl rawId).1.lookup (jsTrim rawId)).map OrderRec.status =
        some "Delivered") ∧
    (rec.status = "Delivered" →
      (adminAdvance tbl rawId).1.lookup (jsTrim rawId) = some rec) := by
  have hfst := adminAdvance_fst_some h
  constructor
  · intro hs
    rw [hfst, lookup_updateStatus, if_pos rfl, h, hs]
    simp
    decide
  · intro hs
    obtain ⟨st, o, d, n₁, n₂⟩ := rec
    simp only [OrderRec.status] at hs
    subst hs
    have hadv : advanceStatus "Delivered" = "Delivered" := by decide
    rw [hfst, lookup_updateStatus, if_pos rfl, h]
    simp [hadv]

/-- Witness for C3 at the demo table: `1003` is `Out for Delivery` and one
advance delivers it; `1004` is `Delivered` and advancing it is a no-op. -/
theorem advance_out_for_delivery_then_delivered_witness :
    ((adminAdvance demoOrders "1003").1.lookup (jsTrim "1003")).map OrderRec.status =
      some "Delivered" ∧
    (adminAdvance demoOrders "1004").1.lookup (jsTrim "1004") =
      some { status := "Delivered", origin := some (17.385, 78.4867),
             dest := some (17.385, 78.4867),
             originName := some "Hyderabad", destName := some "Hyderabad" } :=
  ⟨(advance_out_for_delivery_then_delivered demoOrders "1003" _ rfl).1 rfl,
   (advance_out_for_delivery_then_delivered demoOrders "1004" _ rfl).2 rfl⟩

/-! ### Claim C10: the advance endpoint's frame -/

/-- C10: `POST /api/admin/advance/:orderId` mutates at most the status field
of the targeted order: on an unknown id the whole table is unchanged; every
other key reads exactly as before; and the targeted record keeps its
`origin`, `dest`, `originName` and `destName` fields, only `status` being
replaced by its advanced value. -/
theorem adminAdvance_frame (tbl : List (String × OrderRec)) (rawId : String) :
    (tbl.lookup (jsTrim rawId) = none → (adminAdvance tbl rawId).1 = tbl) ∧
    (∀ k, k ≠ jsTrim rawId → (adminAdvance tbl rawId).1.lookup k = tbl.lookup k) ∧
    (∀ rec, tbl.lookup (jsTrim rawId) = some rec →
      (adminAdvance tbl rawId).1.lookup (jsTrim rawId) =
        some { rec with status := advanceStatus rec.status }) := by
  refine ⟨fun h => adminAdvance_fst_none h, fun k hk => ?_, fun rec h => ?_⟩
  · cases hl : tbl.lookup (jsTrim rawId) with
    | none => rw [adminAdvance_fst_none hl]
    | some rec => rw [adminAdvance_fst_some hl, lookup_updateStatus, if_neg hk]
  · rw [adminAdvance_fst_some h, lookup_updateStatus, if_pos rfl, h]
    rfl

/-- Witness for C10: advancing the unknown id `9999` leaves the demo table
intact; advancing `1001` leaves `1002` untouched and only rewrites the
status of `1001`. -/
theorem adminAdvance_frame_witness :
    (adminAdvance demoOrders "9999").1 = demoOrders ∧
    (adminAdvance demoOrders "1001").1.lookup "1002" = demoOrders.lookup "1002" ∧
    (adminAdvance demoOrders "1001").1.lookup (jsTrim "1001") =
      some { status := "Packed", origin := some (28.6139, 77.209),
             dest := some (19.076, 72.8777),
             originName := some "Delhi", destName := some "Mumbai" } :=
  ⟨(adminAdvance_frame demoOrders "9999").1 rfl,
   (adminAdvance_frame demoOrders "1001").2.1 "1002" (by decide),
   ((adminAdvance_frame demoOrders "1001").2.2 _ rfl).trans rfl⟩

/-! ### Claim C1: Canceled/Returned under the advance flow -/

/-- Counterexample to C1 as stated: on a table holding an order whose
status is `"Canceled"`, the advance handler does *not* leave the status
unchanged — `Math.max(0, indexOf = -1)` clamps to index 0 and the status
becomes `"Packed"` (same for `"Returned"`). -/
theorem canceled_not_terminal_counterexample :
    (canceledTable.lookup "9001").map OrderRec.status = some "Canceled" ∧
    ((adminAdvance canceledTable "9001").1.lookup "9001").map OrderRec.status =
      some "Packed" ∧
    ((adminAdvance canceledTable "9001").1.lookup "9001").map OrderRec.status ≠
      some "Canceled" ∧
    (returnedTable.lookup "9002").map OrderRec.status = some "Returned" ∧
    ((adminAdvance returnedTable "9002").1.lookup "9002").map OrderRec.status =
      some "Packed" := by
  refine ⟨rfl, rfl, by decide, rfl, rfl⟩

/-- C1 (amended): no sequence of advance calls on the demo table (whose
statuses all lie in the forward flow) ever produces `"Canceled"` or
`"Returned"`; however, those statuses are not terminal for the handler:
an advance call on an order whose status is `"Canceled"` or `"Returned"`
sets its status to `"Packed"` instead of leaving it unchanged. -/
theorem canceled_returned_unreachable_but_not_terminal :
    (∀ (ids : List String) (id : String) (rec : OrderRec),
      (applyAdvances ids demoOrders).lookup id = some rec →
        rec.status ∈ flowStatuses ∧ rec.status ≠ "Canceled" ∧ rec.status ≠ "Returned") ∧
    (∀ (tbl : List (String × OrderRec)) (rawId : String) (rec : OrderRec),
      tbl.lookup (jsTrim rawId) = some rec →
      (rec.status = "Canceled" ∨ rec.status = "Returned") →
        ((adminAdvance tbl rawId).1.lookup (jsTrim rawId)).map OrderRec.status =
          some "Packed") := by
  constructor
  · intro ids id rec h
    have hmem := lookup_mem h
    have hflow := allStatusesIn_applyAdvances ids demoOrders allStatusesIn_demo _ hmem
    refine ⟨hflow, ?_, ?_⟩ <;> intro heq <;> rw [heq] at hflow <;> simp [flowStatuses] at hflow
  · intro tbl rawId rec h hs
    rw [adminAdvance_fst_some h, lookup_updateStatus, if_pos rfl, h]
    rcases hs with hs | hs <;> rw [hs] <;> simp <;> decide

/-- Witness for C1 (amended): after two advances `1001` is `"Shipped"`, in
the flow and not Canceled/Returned; advancing the Canceled order `9001` and
the Returned order `9002` yields `"Packed"`. -/
theorem canceled_returned_unreachable_but_not_terminal_witness :
    ((applyAdvances ["1001", "1001"] demoOrders).lookup "1001" =
        some { status := "Shipped", origin := some (28.6139, 77.209),
               dest := some (19.076, 72.8777),
               originName := some "Delhi", destName := some "Mumbai" }) ∧
    ("Shipped" ∈ flowStatuses ∧ "Shipped" ≠ "Canceled" ∧ "Shipped" ≠ "Returned") ∧
    ((adminAdvance canceledTable "9001").1.lookup (jsTrim "9001")).map OrderRec.status =
      some "Packed" ∧
    ((adminAdvance returnedTable "9002").1.lookup (jsTrim "9002")).map OrderRec.status =
      some "Packed" :=
  ⟨rfl,
   (canceled_returned_unreachable_but_not_terminal.1 ["1001", "1001"] "1001" _ rfl),
   canceled_returned_unreachable_but_not_terminal.2 canceledTable "9001" _ rfl (Or.inl rfl),
   canceled_returned_unreachable_but_not_terminal.2 returnedTable "9002" _ rfl (Or.inr rfl)⟩

/-! ### Claim C4: status set and progress bounds after any advances -/

theorem lookup_isSome_adminAdvance (tbl : List (String × OrderRec)) (i k : String) :
    ((adminAdvance tbl i).1.lookup k).isSome = (tbl.lookup k).isSome := by
  cases hl : tbl.lookup (jsTrim i) with
  | none => rw [adminAdvance_fst_none hl]
  | some rec =>
      rw [adminAdvance_fst_some hl, lookup_updateStatus]
      by_cases hk : k = jsTrim i
      · rw [if_pos hk, hk, hl]
        rfl
      · rw [if_neg hk]

theorem lookup_isSome_applyAdvances (ids : List String) (tbl : List (String × OrderRec))
    (k : String) :
    ((applyAdvances ids tbl).lookup k).isSome = (tbl.lookup k).isSome := by
  induction ids generalizing tbl with
  | nil => rfl
  | cons i t ih => exact (ih (adminAdvance tbl i).1).trans (lookup_isSome_adminAdvance tbl i k)

/-- Whatever the status string, `statusMeta[status] ?? 40` is at most 100. -/
theorem progress_le_100 (s : String) : (statusMeta s).getD 40 ≤ 100 := by
  cases h : statusMeta s with
  | none => simp
  | some v =>
      have hv : v ∈ statusMetaTable.map Prod.snd := List.mem_map_of_mem _ (lookup_mem h)
      simp only [Option.getD_some]
      fin_cases hv <;> decide

theorem flow_subset_statusSet : ∀ s ∈ flowStatuses, s ∈ statusSet := by decide

/-- Any id found in the demo table is one of the five seeded keys, hence
nonempty and already trimmed. -/
theorem demo_key_trim {id : String} {rec : OrderRec} (h : demoOrders.lookup id = some rec) :
    jsTrim id = id ∧ id ≠ "" := by
  have hmem : id ∈ demoOrders.map Prod.fst := List.mem_map_of_mem _ (lookup_mem h)
  have hkeys : id ∈ ["1001", "1002", "1003", "1004", "O_ID_3000034"] := by
    simpa [demoOrders] using hmem
  fin_cases hkeys <;> exact ⟨rfl, by decide⟩

/-- C4: for every order id present in the demo table, after any sequence of
admin advance calls, `GET /api/track` answers 200 with a status drawn from
the fixed status set and a progress value in `[0, 100]`. -/
theorem track_status_progress_after_advances (ids : List String) (id : String)
    (rec : OrderRec) (h : demoOrders.lookup id = some rec) :
    ∃ resp : UnifiedResponse,
      apiTrackGet (applyAdvances ids demoOrders) (some id) = .ok resp ∧
      resp.status ∈ statusSet ∧ 0 ≤ resp.progress ∧ resp.progress ≤ 100 := by
  obtain ⟨htrim, hne⟩ := demo_key_trim h
  have hsome : ((applyAdvances ids demoOrders).lookup id).isSome = true := by
    rw [lookup_isSome_applyAdvances, h]
    rfl
  obtain ⟨rec', hrec'⟩ := Option.isSome_iff_exists.mp hsome
  have hflow : rec'.status ∈ flowStatuses :=
    allStatusesIn_applyAdvances ids demoOrders allStatusesIn_demo _ (lookup_mem hrec')
  refine ⟨buildUnifiedResponse rec', ?_, ?_, Nat.zero_le _, ?_⟩
  · simp only [apiTrackGet, normalizeOrderId]
    rw [htrim, if_neg hne, hrec']
  · exact flow_subset_statusSet _ hflow
  · exact progress_le_100 rec'.status

/-- Witness for C4: after advancing `1003`, tracking `1002` still answers
with an in-set status and in-range progress. -/
theorem track_status_progress_after_advances_witness :
    ∃ resp : UnifiedResponse,
      apiTrackGet (applyAdvances ["1003"] demoOrders) (some "1002") = .ok resp ∧
      resp.status ∈ statusSet ∧ 0 ≤ resp.progress ∧ resp.progress ≤ 100 :=
  track_status_progress_after_advances ["1003"] "1002" _ rfl

/-! ### Claim C5: the synthetic current position interpolates the segment -/

/-- C5: when both endpoints are present and the derived progress lies
strictly between 0 and 100, the synthesized `route.current` equals
`origin + (dest - origin) * (progress / 100)` componentwise — the point of
the straight origin→dest segment at fraction `progress / 100`. -/
theorem route_current_on_segment (rec : OrderRec) (olat olng dlat dlng : ℚ)
    (ho : rec.origin = some (olat, olng)) (hd : rec.dest = some (dlat, dlng))
    (hp0 : 0 < (statusMeta rec.status).getD 40)
    (hp100 : (statusMeta rec.status).getD 40 < 100) :
    (buildUnifiedResponse rec).route.current =
      some { lat := olat + (dlat - olat) * (((statusMeta rec.status).getD 40 : ℚ) / 100),
             lng := olng + (dlng - olng) * (((statusMeta rec.status).getD 40 : ℚ) / 100) } := by
  have h1 : (((statusMeta rec.status).getD 40 : ℚ) / 100) ≤ 1 := by
    rw [div_le_one (by norm_num)]
    exact_mod_cast le_of_lt hp100
  have h0 : (0 : ℚ) ≤ ((statusMeta rec.status).getD 40 : ℚ) / 100 := by positivity
  have hclamp : max 0 (min 1 (((statusMeta rec.status).getD 40 : ℚ) / 100)) =
      ((statusMeta rec.status).getD 40 : ℚ) / 100 := by
    rw [min_eq_right h1, max_eq_right h0]
  simp only [buildUnifiedResponse, ho, hd, hclamp]

/-- Witness for C5 at the demo order `1001` (`Processing`, progress 25). -/
theorem route_current_on_segment_witness :
    0 < (statusMeta "Processing").getD 40 ∧ (statusMeta "Processing").getD 40 < 100 ∧
    (buildUnifiedResponse
        { status := "Processing", origin := some (28.6139, 77.209),
          dest := some (19.076, 72.8777),
          originName := some "Delhi", destName := some "Mumbai" }).route.current =
      some { lat := 28.6139 + (19.076 - 28.6139) * (((statusMeta "Processing").getD 40 : ℚ) / 100),
             lng := 77.209 + (72.8777 - 77.209) * (((statusMeta "Processing").getD 40 : ℚ) / 100) } :=
  ⟨by decide, by decide,
   route_current_on_segment _ _ _ _ _ rfl rfl (by decide) (by decide)⟩

/-! ### Claim C9: the three track entry points agree -/

/-- C9: for every id in the demo table, `GET /api/track?orderId=`,
`GET /api/track/:orderId` and `POST /api/track {orderId}` all answer
`200` with the same body, `buildUnifiedResponse` of the same record. -/
theorem track_endpoints_agree (id : String) (rec : OrderRec)
    (h : demoOrders.lookup id = some rec) :
    apiTrackGet demoOrders (some id) = .ok (buildUnifiedResponse rec) ∧
    apiTrackGetPath demoOrders (some id) = .ok (buildUnifiedResponse rec) ∧
    apiTrackPost demoOrders { orderId := some id, id := none, order_id := none, query := none } =
      .ok (buildUnifiedResponse rec) := by
  obtain ⟨htrim, hne⟩ := demo_key_trim h
  refine ⟨?_, ?_, ?_⟩
  · simp only [apiTrackGet, normalizeOrderId]
    rw [htrim, if_neg hne, h]
  · simp only [apiTrackGetPath, normalizeOrderId]
    rw [htrim, if_neg hne, h]
  · have hnorm : normalizeOrderId (jsOrStr (some id) (jsOrStr none none)) = id := by
      simp [jsOrStr, normalizeOrderId, hne, htrim]
    simp only [apiTrackPost]
    rw [hnorm]
    simp only [if_neg hne]
    rw [h]

/-- Witness for C9 at the demo id `1001`. -/
theorem track_endpoints_agree_witness :
    apiTrackGet demoOrders (some "1001") =
      .ok (buildUnifiedResponse
        { status := "Processing", origin := some (28.6139, 77.209),
          dest := some (19.076, 72.8777),
          originName := some "Delhi", destName := some "Mumbai" }) ∧
    apiTrackGetPath demoOrders (some "1001") =
      .ok (buildUnifiedResponse
        { status := "Processing", origin := some (28.6139, 77.209),
          dest := some (19.076, 72.8777),
          originName := some "Delhi", destName := some "Mumbai" }) ∧
    apiTrackPost demoOrders { orderId := some "1001", id := none, order_id := none, query := none } =
      .ok (buildUnifiedResponse
        { status := "Processing", origin := some (28.6139, 77.209),
          dest := some (19.076, 72.8777),
          originName := some "Delhi", destName := some "Mumbai" }) :=
  track_endpoints_agree "1001" _ rfl

/-! ### Claim C7: unknown id and unconfigured carrier provider -/

/-- C7: a track request whose (normalized, nonempty) id is absent from the
demo table answers 404 with an error body; a carrier lookup with both
parameters present but no `AFTERSHIP_API_KEY` answers the 501
"not configured" error instead of crashing. -/
theorem unknown_id_404_and_unconfigured_carrier_501 :
    (∀ q : Option String, normalizeOrderId q ≠ "" →
      demoOrders.lookup (normalizeOrderId q) = none →
      apiTrackGet demoOrders q = .notFound "Order not found") ∧
    (∀ carrier tracking : Option String,
      carrier.getD "" ≠ "" → tracking.getD "" ≠ "" →
      apiTrackCarrier carrier tracking none =
        .notConfigured "Tracking provider not configured on server (set AFTERSHIP_API_KEY)") := by
  constructor
  · intro q hne hnone
    simp only [apiTrackGet]
    rw [if_neg hne, hnone]
  · intro c t hc ht
    simp [apiTrackCarrier, hc, ht]

/-- Witness for C7: id `9999` is unknown (404); `ekart:FMPC123456` with no
configured key answers the 501 error. -/
theorem unknown_id_404_and_unconfigured_carrier_501_witness :
    apiTrackGet demoOrders (some "9999") = .notFound "Order not found" ∧
    apiTrackCarrier (some "ekart") (some "FMPC123456") none =
      .notConfigured "Tracking provider not configured on server (set AFTERSHIP_API_KEY)" :=
  ⟨unknown_id_404_and_unconfigured_carrier_501.1 (some "9999") (by decide) rfl,
   unknown_id_404_and_unconfigured_carrier_501.2 (some "ekart") (some "FMPC123456")
     (by decide) (by decide)⟩

/-! ### Claim C2: track-any without a provider key -/

/-- Counterexample to C2 as stated: `"abc"` is nonempty, is not a demo
order id, and matches none of the five carrier link-format patterns, yet
`POST /api/track-any` with no provider key answers 200 with the
unconditional fallback links — never the 404 "no known link format"
error, whose branch is unreachable for nonempty queries. -/
theorem trackany_no_pattern_counterexample :
    jsTrim "abc" = "abc" ∧ "abc" ≠ "" ∧ demoOrders.lookup "abc" = none ∧
    matchesAmazon "abc" = false ∧ matchesUPS "abc" = false ∧
    matchesUSPS "abc" = false ∧ matchesFedEx "abc" = false ∧
    matchesDHL "abc" = false ∧
    apiTrackAny demoOrders none { query := some "abc", q := none } =
      .okLinks "Open in carrier site" 0 (buildCarrierLinks "abc")
        "Provider API not configured; use an official tracking link below." ∧
    (apiTrackAny demoOrders none { query := some "abc", q := none }).isNoLinkNotFound =
      false := by
  refine ⟨rfl, by decide, rfl, rfl, rfl, rfl, rfl, rfl, ?_, rfl⟩
  rfl

/-- The six India-carrier links are appended unconditionally, so
`buildCarrierLinks` never returns an empty list. -/
theorem buildCarrierLinks_ne_nil (code : String) : buildCarrierLinks code ≠ [] := by
  unfold buildCarrierLinks
  intro hcontra
  simp [List.append_eq_nil] at hcontra

/-- C2 (amended): for every nonempty query that is not a demo order id,
when no provider API key is configured, `POST /api/track-any` answers 200
with the (always nonempty) official-link list and a "provider not
configured" note; the 404 "no known link format" response is unreachable
for nonempty queries. -/
theorem trackany_no_key_always_links (body : TrackAnyBody) (raw : String)
    (hraw : raw = jsTrim ((jsOrStr body.query body.q).getD ""))
    (hne : raw ≠ "") (hdemo : demoOrders.lookup raw = none) :
    apiTrackAny demoOrders none body =
      .okLinks "Open in carrier site" 0 (buildCarrierLinks raw)
        "Provider API not configured; use an official tracking link below." ∧
    buildCarrierLinks raw ≠ [] := by
  subst hraw
  refine ⟨?_, buildCarrierLinks_ne_nil _⟩
  have hlen : (buildCarrierLinks (jsTrim ((jsOrStr body.query body.q).getD ""))).length ≠ 0 := by
    simpa [List.length_eq_zero] using
      buildCarrierLinks_ne_nil (jsTrim ((jsOrStr body.query body.q).getD ""))
  simp only [apiTrackAny]
  rw [if_neg hne, hdemo]
  simp [hlen]

/-- Witness for C2 (amended) at the query `"abc"`. -/
theorem trackany_no_key_always_links_witness :
    (apiTrackAny demoOrders none { query := some "abc", q := none } =
      .okLinks "Open in carrier site" 0 (buildCarrierLinks "abc")
        "Provider API not configured; use an official tracking link below.") ∧
    buildCarrierLinks "abc" ≠ [] :=
  trackany_no_key_always_links { query := some "abc", q := none } "abc" rfl (by decide) rfl

/-! ### Claim C6: duplicate subscriptions are kept and both notified -/

/-- C6: subscribing twice with the same order/email pair for a known order
appends two separate records (no deduplication), and a subsequent
status-change notification for that order sends one email per stored
record — in particular both duplicates receive the email. -/
theorem subscribe_twice_both_notified (orders : List (String × OrderRec))
    (subs : List Subscription) (bodyOrderId bodyEmail : Option String)
    (ts₁ ts₂ : String) (rec : OrderRec)
    (hord : orders.lookup (normalizeOrderId bodyOrderId) = some rec)
    (hid : normalizeOrderId bodyOrderId ≠ "")
    (hem : jsToLower (jsTrim (bodyEmail.getD "")) ≠ "") :
    (apiSubscribe orders subs bodyOrderId bodyEmail ts₁).2 = .ok ∧
    (apiSubscribe orders (apiSubscribe orders subs bodyOrderId bodyEmail ts₁).1
        bodyOrderId bodyEmail ts₂).2 = .ok ∧
    (apiSubscribe orders (apiSubscribe orders subs bodyOrderId bodyEmail ts₁).1
        bodyOrderId bodyEmail ts₂).1 =
      subs ++
        [{ orderId := normalizeOrderId bodyOrderId,
           email := jsToLower (jsTrim (bodyEmail.getD "")), ts := ts₁ },
         { orderId := normalizeOrderId bodyOrderId,
           email := jsToLower (jsTrim (bodyEmail.getD "")), ts := ts₂ }] ∧
    (∀ oldStatus newStatus : String,
      notifySubscribers
        (apiSubscribe orders (apiSubscribe orders subs bodyOrderId bodyEmail ts₁).1
          bodyOrderId bodyEmail ts₂).1
        (normalizeOrderId bodyOrderId) oldStatus newStatus orders =
      (subs.filter (fun sub => sub.orderId = normalizeOrderId bodyOrderId)).map
          (fun sub =>
            (sub.email,
             "Order " ++ normalizeOrderId bodyOrderId ++ " Update - " ++ newStatus)) ++
        [(jsToLower (jsTrim (bodyEmail.getD "")),
          "Order " ++ normalizeOrderId bodyOrderId ++ " Update - " ++ newStatus),
         (jsToLower (jsTrim (bodyEmail.getD "")),
          "Order " ++ normalizeOrderId bodyOrderId ++ " Update - " ++ newStatus)]) := by
  have hguard : ¬(normalizeOrderId bodyOrderId = "" ∨ jsToLower (jsTrim (bodyEmail.getD "")) = "") := by
    simp [hid, hem]
  have h₁ : apiSubscribe orders subs bodyOrderId bodyEmail ts₁ =
      (subs ++ [{ orderId := normalizeOrderId bodyOrderId,
                  email := jsToLower (jsTrim (bodyEmail.getD "")), ts := ts₁ }], .ok) := by
    simp only [apiSubscribe]
    rw [if_neg hguard, hord]
  have h₂ : apiSubscribe orders (apiSubscribe orders subs bodyOrderId bodyEmail ts₁).1
      bodyOrderId bodyEmail ts₂ =
      (subs ++ [{ orderId := normalizeOrderId bodyOrderId,
                  email := jsToLower (jsTrim (bodyEmail.getD "")), ts := ts₁ },
                { orderId := normalizeOrderId bodyOrderId,
                  email := jsToLower (jsTrim (bodyEmail.getD "")), ts := ts₂ }], .ok) := by
    rw [h₁]
    simp only [apiSubscribe]
    rw [if_neg hguard, hord]
    simp
  refine ⟨by rw [h₁], by rw [h₂], by rw [h₂], ?_⟩
  intro oldS newS
  rw [h₂]
  simp only [notifySubscribers, List.filter_append]
  rw [hord]
  simp [List.filter]

/-- Witness for C6: double-subscribing `alice` to order `1002` stores two
records and a status-change notification emails her twice. -/
theorem subscribe_twice_both_notified_witness :
    (apiSubscribe demoOrders [] (some "1002") (some "Alice@Example.com") "t1").2 = .ok ∧
    (apiSubscribe demoOrders
        (apiSubscribe demoOrders [] (some "1002") (some "Alice@Example.com") "t1").1
        (some "1002") (some "Alice@Example.com") "t2").2 = .ok ∧
    (apiSubscribe demoOrders
        (apiSubscribe demoOrders [] (some "1002") (some "Alice@Example.com") "t1").1
        (some "1002") (some "Alice@Example.com") "t2").1 =
      [{ orderId := "1002", email := "alice@example.com", ts := "t1" },
       { orderId := "1002", email := "alice@example.com", ts := "t2" }] ∧
    notifySubscribers
        (apiSubscribe demoOrders
          (apiSubscribe demoOrders [] (some "1002") (some "Alice@Example.com") "t1").1
          (some "1002") (some "Alice@Example.com") "t2").1
        "1002" "Shipped" "In Transit" demoOrders =
      [("alice@example.com", "Order 1002 Update - In Transit"),
       ("alice@example.com", "Order 1002 Update - In Transit")] := by
  obtain ⟨h₁, h₂, h₃, h₄⟩ :=
    subscribe_twice_both_notified demoOrders [] (some "1002") (some "Alice@Example.com")
      "t1" "t2" _ rfl (by decide) (by decide)
  exact ⟨h₁, h₂, h₃.trans (by rfl), (h₄ "Shipped" "In Transit").trans (by rfl)⟩

/-! ### Claim C8: totality of the carrier tag mapping -/

/-- C8: the carrier tag mapping is total over strings — lowercasing the
(possibly absent) tag, each recognized tag yields its fixed local
status/progress pair from `recognizedTagTable`, and every other tag
(including empty or absent ones) yields `("Shipped", 50)`. -/
theorem mapAfterShipTag_total (tag : Option String) :
    mapAfterShipTag tag =
      (recognizedTagTable.lookup (jsToLower (tag.getD ""))).getD ("Shipped", 50) := by
  simp only [mapAfterShipTag]
  generalize jsToLower (tag.getD "") = t
  by_cases h1 : t = "pending"
  · subst h1; decide
  by_cases h2 : t = "info_received"
  · subst h2; decide
  by_cases h3 : t = "intransit"
  · subst h3; decide
  by_cases h4 : t = "in_transit"
  · subst h4; decide
  by_cases h5 : t = "outfordelivery"
  · subst h5; decide
  by_cases h6 : t = "out_for_delivery"
  · subst h6; decide
  by_cases h7 : t = "delivered"
  · subst h7; decide
  by_cases h8 : t = "exception"
  · subst h8; decide
  by_cases h9 : t = "failed_attempt"
  · subst h9; decide
  by_cases h10 : t = "expired"
  · subst h10; decide
  by_cases h11 : t = "canceled"
  · subst h11; decide
  simp [recognizedTagTable, List.lookup_cons, h1, h2, h3, h4, h5, h6, h7, h8, h9, h10, h11,
    beq_false_of_ne h1, beq_false_of_ne h2, beq_false_of_ne h3, beq_false_of_ne h4,
    beq_false_of_ne h5, beq_false_of_ne h6, beq_false_of_ne h7, beq_false_of_ne h8,
    beq_false_of_ne h9, beq_false_of_ne h10, beq_false_of_ne h11]
